/-
Verification of target-duckpond (a Singer SQL target writing streams into a
DuckDB-backed "pond") against its natural-language specification.

The development shallowly embeds the code of `target_duckpond/sinks.py`:
pure fragments become Lean functions, filesystem effects become explicit
values recording what was created, and the SQLAlchemy objects built by the
connector become a `Column` record type.  Where the repository leaves the
commit protocol unimplemented (the body of `DuckPondSink.clean_up` holds the
steps only as comments), the Commit Coordinator is modelled from the
specification's state machine and the claims about it are settled against
that model.
-/
import Mathlib

set_option autoImplicit false

/-! ## Native SQL types

`DuckPondConnector.to_sql_type` (inherited from the SDK) maps a JSON-schema
property to a SQLAlchemy type object.  The code only inspects the result
with `isinstance(sql_type, sqlalchemy.Integer)`; we model the type universe
as a small inductive and that test as `isIntegerInstance`.  SQLAlchemy's
`BigInteger` and `SmallInteger` are subclasses of `Integer`, so they answer
true to the `isinstance` test. -/

inductive SqlType where
  | integer
  | bigint
  | smallint
  | varchar
  | boolean
  deriving DecidableEq, Repr

def SqlType.isIntegerInstance : SqlType → Bool
  | .integer => true
  | .bigint => true
  | .smallint => true
  | .varchar => false
  | .boolean => false

/-! ## Columns and schemas -/

/-- A SQLAlchemy `Column` as built by `DuckPondConnector.create_empty_table`:
its name, its mapped native type, the optional attached `Sequence` (by name),
the optional `server_default` (the name of the sequence whose `next_value()`
is the default), and the primary-key flag. -/
structure Column where
  name : String
  sqlType : SqlType
  sequence : Option String
  serverDefault : Option String
  primaryKey : Bool
  deriving DecidableEq, Repr

/-- The JSON schema handed to `create_empty_table`.  The code reads
`schema["properties"]` and catches `KeyError`, so the one observable aspect
is whether a `properties` key exists and, when it does, the ordered list of
(property name, property JSON-schema) pairs.  Property JSON-schemas are
opaque tokens here; the type mapper is passed in explicitly. -/
structure TableSchema where
  properties : Option (List (String × String))
  deriving DecidableEq, Repr

/-- Errors `create_empty_table` can raise: the `NotImplementedError` for
temp tables, and the `RuntimeError` ("Schema ... does not define
properties") that the specification calls `SchemaError`. -/
inductive TableCreateError where
  | notImplementedTempTables
  | schemaWithoutProperties
  deriving DecidableEq, Repr

/-- Name of the primary-key sequence:
`f"{schema_name}_{table_name}_{property_name}_pk_seq"`. -/
def pkSeqName (schemaName tableName propertyName : String) : String :=
  schemaName ++ "_" ++ tableName ++ "_" ++ propertyName ++ "_pk_seq"

/-- The loop body of `create_empty_table`: build one `Column` from one
`(property_name, property_jsonschema)` pair.  A primary-key property whose
mapped type is an `Integer` instance gets the SERIAL-workaround sequence and
its `next_value()` as server default; every other property gets a plain
column whose primary-key flag records membership in `primary_keys`. -/
def buildColumn (schemaName tableName : String) (primaryKeys : List String)
    (toSqlType : String → SqlType) (prop : String × String) : Column :=
  let isPrimaryKey := primaryKeys.contains prop.1
  let sqlType := toSqlType prop.2
  if isPrimaryKey && sqlType.isIntegerInstance then
    { name := prop.1
      sqlType := sqlType
      sequence := some (pkSeqName schemaName tableName prop.1)
      serverDefault := some (pkSeqName schemaName tableName prop.1)
      primaryKey := isPrimaryKey }
  else
    { name := prop.1
      sqlType := sqlType
      sequence := none
      serverDefault := none
      primaryKey := isPrimaryKey }

/-- `DuckPondConnector.create_empty_table`.  The `full_table_name` argument
of the Python code is represented after `parse_full_table_name` as the pair
`(schemaName, tableName)`.  The function first rejects temp tables, then
reads `schema["properties"]` (raising on a missing key), then builds one
column per property in order; the resulting column list is the table handed
to `meta.create_all`. -/
def create_empty_table (schemaName tableName : String) (schema : TableSchema)
    (primaryKeys : Option (List String)) (asTempTable : Bool)
    (toSqlType : String → SqlType) : Except TableCreateError (List Column) :=
  if asTempTable then
    .error .notImplementedTempTables
  else
    let pks := primaryKeys.getD []
    match schema.properties with
    | none => .error .schemaWithoutProperties
    | some props =>
        .ok (props.map (buildColumn schemaName tableName pks toSqlType))

/-! ## Sink identity and path layout -/

/-- The state a `DuckPondSink` instance carries that the path helpers read:
the configured pond root, the optional target schema name, the stream's
table name, and the per-instance `sink_id` (a fresh `uuid4` in the code,
here an abstract string). -/
structure DuckPondSink where
  pondRootDir : String
  schemaName : Option String
  tableName : String
  sinkId : String
  deriving DecidableEq, Repr

/-- `DuckPondSink.sink_tmp_dir`: `Path(f"{pond_root_dir}/tmp/{sink_id}")`. -/
def DuckPondSink.sink_tmp_dir (s : DuckPondSink) : String :=
  s.pondRootDir ++ "/tmp/" ++ s.sinkId

/-- The staging store file used by `new_connector`:
`f"duckdb:///{sink_tmp_dir}/duckpond.db"` points the engine at this path. -/
def DuckPondSink.duckpond_db_path (s : DuckPondSink) : String :=
  s.sink_tmp_dir ++ "/duckpond.db"

/-- `DuckPondSink.sink_raw_dir`: start from `{pond_root_dir}/raw`, append the
schema name when it is truthy (Python: `if self.schema_name:` is false for
`None` and for the empty string), then append the table name. -/
def DuckPondSink.sink_raw_dir (s : DuckPondSink) : String :=
  let path := s.pondRootDir ++ "/raw"
  let path :=
    match s.schemaName with
    | some n => if n = "" then path else path ++ "/" ++ n
    | none => path
  path ++ "/" ++ s.tableName

/-! ## Sink setup -/

/-- What `DuckPondSink.setup` leaves behind: the directories it `mkdir`s, in
order, and the outcome of the staging-table creation that the inherited
`super().setup()` performs through the connector. -/
structure SetupResult where
  createdDirs : List String
  tableResult : Except TableCreateError (List Column)
  deriving Repr

/-- `DuckPondSink.setup`: create the final output dir, create the tmp dir
for the working duckdb database, then create/update the staging table in the
working database (the inherited setup calls `create_empty_table` with
`as_temp_table=False` for a fresh store).  The directory creations happen
before the table creation, so they occur even when the latter fails. -/
def DuckPondSink.setup (s : DuckPondSink) (schema : TableSchema)
    (keyProperties : Option (List String))
    (toSqlType : String → SqlType) : SetupResult :=
  let rawDir := s.sink_raw_dir
  let tmpDir := s.sink_tmp_dir
  { createdDirs := [rawDir, tmpDir]
    tableResult :=
      create_empty_table (s.schemaName.getD "main") s.tableName schema
        keyProperties false toSqlType }

/-! ## Commit Coordinator

`DuckPondSink.clean_up` in the source contains the commit protocol only as
comments (lock destination dir, merge upsert the working database contents,
atomic replace, delete working database, release lock); the specification
records in its design notes that the merge step "is not actually
implemented" and gives the intended state machine instead.  The coordinator
below is therefore modelled from the specification, and the claims about
commit behaviour are settled against this model. -/

/-- The source `DuckPondSink.clean_up` body: it calls the inherited no-op
`clean_up` and performs none of the commented steps, so as implemented it
leaves every resource untouched. -/
def clean_up_impl {α : Type} (s : α) : α := s

/-- A destination (or staging) table: rows as (primary-key value, non-key
columns) pairs. -/
abbrev DestTable := List (String × String)

/-- Whether some row of the table carries the given primary-key value. -/
def hasKey : DestTable → String → Bool
  | [], _ => false
  | p :: rest, k => if p.1 = k then true else hasKey rest k

/-- The value the table shows for a primary key: the LAST row with that key
(later rows shadow earlier ones, matching upsert order). -/
def lookupLast : DestTable → String → Option String
  | [], _ => none
  | p :: rest, k =>
      match lookupLast rest k with
      | some v => some v
      | none => if p.1 = k then some p.2 else none

/-- Modelled from the spec: one upsert. A staged row whose primary key
matches an existing destination row overwrites that row's non-key columns;
a row with no match is inserted. -/
def upsertRow (dest : DestTable) (row : String × String) : DestTable :=
  if hasKey dest row.1 then
    dest.map (fun p => if p.1 = row.1 then row else p)
  else
    dest ++ [row]

/-- Modelled from the spec: upsert every row from the StagingTable into the
DestinationTable, in staging order. -/
def mergeUpsert (dest staged : DestTable) : DestTable :=
  staged.foldl upsertRow dest

/-- Modelled from the spec: the failure modes the spec groups under
`CommitError` — lock-acquisition timeout, merge failure, atomic-replace
failure. -/
inductive CommitError where
  | lockTimeout
  | mergeFailure
  | atomicReplaceFailure
  deriving DecidableEq, Repr

/-- Modelled from the spec: how a commit attempt resolves, decided by the
environment (lock contention, disk failure, ...). -/
inductive MergeOutcome where
  | success
  | failure (e : CommitError)
  deriving DecidableEq, Repr

/-- Modelled from the spec: the resources a stream-writer's commit touches —
the destination table (`none` while the DestinationTable does not yet
exist), the staged rows, the private staging directory and staging store
file, and whether this writer holds the CommitLock. -/
structure CommitState where
  destination : Option DestTable
  stagingRows : DestTable
  stagingDirPresent : Bool
  stagingDbPresent : Bool
  lockHeld : Bool
  deriving DecidableEq, Repr

/-- Modelled from the spec: the Commit Coordinator's state machine run from
`Staged` to a terminal state.  On a lock timeout the lock was never
acquired and nothing changes.  On a merge or atomic-replace failure the
lock is acquired, the destination's visible state is left exactly as it was
(the merge is staged to a temporary path and only an atomic replace
publishes it), the lock is released, and the staging area is kept for
inspection.  On success the lock is acquired, the merged table is published
atomically (creating the DestinationTable from the staging columns when it
did not exist), the lock is released, and the staging directory and staging
store file are deleted. -/
def clean_up_spec : MergeOutcome → CommitState → CommitState × Option CommitError
  | .failure .lockTimeout, s => (s, some .lockTimeout)
  | .failure .mergeFailure, s =>
      let locked := { s with lockHeld := true }
      let released := { locked with lockHeld := false }
      (released, some .mergeFailure)
  | .failure .atomicReplaceFailure, s =>
      let locked := { s with lockHeld := true }
      let released := { locked with lockHeld := false }
      (released, some .atomicReplaceFailure)
  | .success, s =>
      let locked := { s with lockHeld := true }
      let merged :=
        { locked with
            destination := some (mergeUpsert (s.destination.getD []) s.stagingRows) }
      let released := { merged with lockHeld := false }
      let cleaned :=
        { released with
            stagingRows := []
            stagingDirPresent := false
            stagingDbPresent := false }
      (cleaned, none)

/-! ## Insert-statement generation

`DuckPondSink.generate_insert_statement` builds, from the conformed property
names of the schema, the SQL text

    INSERT INTO {full_table_name}
    ({", ".join of the quoted column names})
    VALUES ({", ".join of the named placeholders})

as a triple-quoted f-string whose lines are indented twelve spaces in the
Python source, passes it through `textwrap.dedent`, and strips trailing
whitespace with `str.rstrip()`.  Strings are modelled as character lists so
`dedent` (split into lines, compute the common whitespace margin of
non-blank lines, remove it from every line that starts with it) and
`rstrip` can be embedded exactly. -/

abbrev Chars := List Char

def isWsChar (c : Char) : Bool := c.isWhitespace

/-- Python `str.split("\n")` as used by `textwrap.dedent`. -/
def splitLines : Chars → List Chars
  | [] => [[]]
  | c :: cs =>
      if c = '\n' then [] :: splitLines cs
      else
        match splitLines cs with
        | [] => [[c]]
        | h :: t => (c :: h) :: t

/-- Python `"\n".join` / `", ".join`: interleave a separator. -/
def joinSep (sep : Chars) : List Chars → Chars
  | [] => []
  | [x] => x
  | x :: y :: xs => x ++ sep ++ joinSep sep (y :: xs)

/-- The leading whitespace of a line. -/
def indentOf (l : Chars) : Chars := l.takeWhile isWsChar

/-- A line consisting solely of whitespace, ignored by `dedent`'s margin
computation. -/
def isBlank (l : Chars) : Bool := l.all isWsChar

/-- Longest common prefix of two indents, as `dedent` computes the margin. -/
def commonIndent : Chars → Chars → Chars
  | x :: a, y :: b => if x = y then x :: commonIndent a b else []
  | _, _ => []

/-- The common whitespace margin of the non-blank lines. -/
def marginOf (lines : List Chars) : Chars :=
  match (lines.filter (fun l => !isBlank l)).map indentOf with
  | [] => []
  | m :: ms => ms.foldl commonIndent m

/-- Whether a line starts with the margin (`dedent` only removes the margin
from lines it actually prefixes). -/
def hasIndent : Chars → Chars → Bool
  | [], _ => true
  | _ :: _, [] => false
  | x :: a, y :: b => if x = y then hasIndent a b else false

def stripIndent (m l : Chars) : Chars :=
  if hasIndent m l then l.drop m.length else l

/-- `textwrap.dedent`. -/
def dedentChars (s : Chars) : Chars :=
  joinSep ['\n'] ((splitLines s).map (stripIndent (marginOf (splitLines s))))

/-- `str.rstrip()`. -/
def rstripChars (s : Chars) : Chars := (s.reverse.dropWhile isWsChar).reverse

/-- `f'"{p}"'`: a column name enclosed in double quotes. -/
def quotedName (p : Chars) : Chars := '"' :: (p ++ ['"'])

/-- `f":{name}"`: the named parameter placeholder for a property. -/
def paramRef (p : Chars) : Chars := ':' :: p

/-- The twelve-space indentation the f-string's lines carry in the source
before `dedent` runs. -/
def sp12 : Chars := List.replicate 12 ' '

/-- `DuckPondSink.generate_insert_statement`, applied to the conformed
property names of the schema (the keys of
`self.conform_schema(schema)["properties"]`). -/
def generate_insert_statement (fullTableName : Chars) (propertyNames : List Chars) : Chars :=
  let cols := joinSep ", ".data (propertyNames.map quotedName)
  let vals := joinSep ", ".data (propertyNames.map paramRef)
  let line1 := sp12 ++ "INSERT INTO ".data ++ fullTableName
  let line2 := sp12 ++ '(' :: (cols ++ [')'])
  let line3 := sp12 ++ "VALUES (".data ++ vals ++ [')']
  let raw := line1 ++ '\n' :: (line2 ++ '\n' :: (line3 ++ '\n' :: sp12))
  rstripChars (dedentChars raw)


/-- A concrete commit state used by witnesses: a destination holding keys
"1" and "2", staged rows overwriting key "1" and inserting key "3". -/
def commitDemoState : CommitState where
  destination := some [("1", "a"), ("2", "b")]
  stagingRows := [("1", "c"), ("3", "d")]
  stagingDirPresent := true
  stagingDbPresent := true
  lockHeld := false

/-- A concrete JSON-schema-to-native type mapper used by witnesses. -/
def demoTypeMapper : String → SqlType :=
  fun d => if d = "integer" then .integer else .varchar

/-! ### Merge-upsert lemmas -/

theorem lookupLast_append (a b : DestTable) (k : String) :
    lookupLast (a ++ b) k =
      match lookupLast b k with
      | some v => some v
      | none => lookupLast a k := by
  induction a with
  | nil => cases h : lookupLast b k <;> simp [lookupLast, h]
  | cons p rest ih =>
      show (match lookupLast (rest ++ b) k with
            | some v => some v
            | none => if p.1 = k then some p.2 else none) = _
      rw [ih]
      cases h : lookupLast b k <;> cases h2 : lookupLast rest k <;>
        simp [lookupLast, h, h2]

theorem lookupLast_map_hit (d : DestTable) (row : String × String) (k : String)
    (hk : row.1 = k) :
    lookupLast (d.map fun p => if p.1 = row.1 then row else p) k =
      if hasKey d row.1 then some row.2 else none := by
  subst hk
  induction d with
  | nil => simp [lookupLast, hasKey]
  | cons p rest ih =>
      by_cases hp : p.1 = row.1 <;> by_cases h2 : hasKey rest row.1 <;>
        simp [lookupLast, hasKey, ih, hp, h2]

theorem lookupLast_map_miss (d : DestTable) (row : String × String) (k : String)
    (hk : ¬ row.1 = k) :
    lookupLast (d.map fun p => if p.1 = row.1 then row else p) k =
      lookupLast d k := by
  induction d with
  | nil => simp [lookupLast]
  | cons p rest ih =>
      by_cases hp : p.1 = row.1 <;> cases h2 : lookupLast rest k <;>
        simp [lookupLast, ih, hp, hk, h2]

theorem lookupLast_upsertRow (d : DestTable) (row : String × String) (k : String) :
    lookupLast (upsertRow d row) k =
      if row.1 = k then some row.2 else lookupLast d k := by
  unfold upsertRow
  by_cases hd : hasKey d row.1
  · rw [if_pos hd]
    by_cases hk : row.1 = k
    · rw [if_pos hk, lookupLast_map_hit d row k hk, if_pos hd]
    · rw [if_neg hk, lookupLast_map_miss d row k hk]
  · rw [if_neg hd, lookupLast_append]
    by_cases hk : row.1 = k <;> simp [lookupLast, hk]

theorem lookupLast_mergeUpsert (staged dest : DestTable) (k : String) :
    lookupLast (mergeUpsert dest staged) k =
      match lookupLast staged k with
      | some v => some v
      | none => lookupLast dest k := by
  induction staged generalizing dest with
  | nil => simp [mergeUpsert, lookupLast]
  | cons r rest ih =>
      show lookupLast (mergeUpsert (upsertRow dest r) rest) k = _
      rw [ih]
      cases h2 : lookupLast rest k <;>
        simp [lookupLast, lookupLast_upsertRow, h2]
      by_cases hk : r.1 = k <;> simp [hk]

/-! ### String append cancellation -/

theorem string_append_left_cancel {a b c : String} (h : a ++ b = a ++ c) : b = c := by
  apply String.ext
  have hd := congrArg String.data h
  simp only [String.data_append] at hd
  exact (List.append_right_inj a.data).mp hd

theorem string_append_right_cancel {a b c : String} (h : a ++ c = b ++ c) : a = b := by
  apply String.ext
  have hd := congrArg String.data h
  simp only [String.data_append] at hd
  exact (List.append_left_inj c.data).mp hd

/-! ## Claims -/

/-- C1: for every stream-writer that reaches stream completion and whose
commit succeeds, every staged row is merge-upserted into the destination
table — every staged primary key afterwards shows its staged value (matching
destination rows overwritten, unmatched rows inserted) and every non-staged
key keeps its pre-merge value — and the writer's private staging directory
and staging store file are deleted afterwards. -/
theorem c1_clean_up_merges_and_deletes_staging (s : CommitState) :
    ∃ t, (clean_up_spec .success s).1.destination = some t
      ∧ (∀ k v, lookupLast s.stagingRows k = some v → lookupLast t k = some v)
      ∧ (∀ k, lookupLast s.stagingRows k = none →
          lookupLast t k = lookupLast (s.destination.getD []) k)
      ∧ (clean_up_spec .success s).1.stagingDirPresent = false
      ∧ (clean_up_spec .success s).1.stagingDbPresent = false := by
  refine ⟨mergeUpsert (s.destination.getD []) s.stagingRows, rfl, ?_, ?_, rfl, rfl⟩
  · intro k v hv
    rw [lookupLast_mergeUpsert, hv]
  · intro k hv
    rw [lookupLast_mergeUpsert, hv]

/-- C1 witness at `commitDemoState`: staged key "1" overwrites, staged key
"3" is inserted, untouched key "2" survives, staging resources are gone. -/
theorem c1_clean_up_merges_and_deletes_staging_witness :
    ∃ t, (clean_up_spec .success commitDemoState).1.destination = some t
      ∧ lookupLast t "1" = some "c"
      ∧ lookupLast t "3" = some "d"
      ∧ lookupLast t "2" = some "b"
      ∧ (clean_up_spec .success commitDemoState).1.stagingDirPresent = false
      ∧ (clean_up_spec .success commitDemoState).1.stagingDbPresent = false := by
  obtain ⟨t, ht, hhit, hmiss, hdir, hdb⟩ :=
    c1_clean_up_merges_and_deletes_staging commitDemoState
  exact ⟨t, ht, hhit "1" "c" (by decide), hhit "3" "d" (by decide),
    (hmiss "2" (by decide)).trans (by decide), hdir, hdb⟩

/-- C2: every commit attempt that fails during merging — lock timeout, merge
failure, or atomic-replace failure — leaves the Destination Store's visible
state exactly equal to its pre-merge state (no partial rows become visible
and no table goes missing), and surfaces the corresponding CommitError. -/
theorem c2_failed_commit_leaves_destination_unchanged
    (e : CommitError) (s : CommitState) :
    (clean_up_spec (.failure e) s).1.destination = s.destination
    ∧ (clean_up_spec (.failure e) s).2 = some e := by
  cases e <;> exact ⟨rfl, rfl⟩

/-- C3: from any state in which the writer does not yet hold the CommitLock,
every exit path out of the merge step — success or any failure — ends with
the CommitLock released, so the lock is never held past the writer's
lifetime. -/
theorem c3_lock_released_on_every_exit_path (o : MergeOutcome) (s : CommitState)
    (h : s.lockHeld = false) :
    (clean_up_spec o s).1.lockHeld = false := by
  cases o with
  | success => rfl
  | failure e => cases e <;> simp [clean_up_spec, h]

/-- C3 witness: the lock-timeout exit path from `commitDemoState` ends with
the lock released. -/
theorem c3_lock_released_on_every_exit_path_witness :
    commitDemoState.lockHeld = false
    ∧ (clean_up_spec (.failure .lockTimeout) commitDemoState).1.lockHeld = false :=
  ⟨rfl, c3_lock_released_on_every_exit_path (.failure .lockTimeout) commitDemoState rfl⟩

/-- C2 witness: a merge failure over the demo state leaves the destination
exactly as it was and reports the error. -/
theorem c2_failed_commit_leaves_destination_unchanged_witness :
    (clean_up_spec (.failure .mergeFailure) commitDemoState).1.destination
      = commitDemoState.destination
    ∧ (clean_up_spec (.failure .mergeFailure) commitDemoState).2
      = some .mergeFailure :=
  c2_failed_commit_leaves_destination_unchanged .mergeFailure commitDemoState

/-- C4 counterexample: a StreamSchema whose `properties` key is present but
holds zero properties has "no fields at all", yet `create_empty_table` does
not raise the SchemaError — it returns an empty column list. -/
theorem c4_counterexample_zero_properties_not_rejected :
    create_empty_table "main" "users" { properties := some [] } none false
      (fun _ => SqlType.varchar) = .ok [] := rfl

/-- C4 (amended): staging-table creation fails with the SchemaError exactly
when the StreamSchema lacks a `properties` key; whenever the `properties`
key is present — even with zero properties, and in particular for every
schema with at least one property — that error is not raised. -/
theorem c4_schema_error_iff_properties_key_missing (schemaName tableName : String)
    (schema : TableSchema) (primaryKeys : Option (List String))
    (toSqlType : String → SqlType) :
    schema.properties = none ↔
      create_empty_table schemaName tableName schema primaryKeys false toSqlType
        = .error .schemaWithoutProperties := by
  cases h : schema.properties <;> simp [create_empty_table, h]

/-- C4 witness: a schema without a `properties` key is rejected with the
SchemaError. -/
theorem c4_schema_error_iff_properties_key_missing_witness :
    create_empty_table "main" "users" { properties := none } none false
      (fun _ => SqlType.varchar) = .error .schemaWithoutProperties :=
  (c4_schema_error_iff_properties_key_missing "main" "users"
    { properties := none } none (fun _ => SqlType.varchar)).mp rfl

/-- C5 counterexample: for a schema with no `properties` key, setup does
fail with the SchemaError, but the destination directory and the private
staging directory have already been created — the list of created
directories is not empty, contradicting "no staging or destination files or
directories are created". -/
theorem c5_counterexample_dirs_created_despite_schema_error :
    (DuckPondSink.setup
        { pondRootDir := "pond", schemaName := some "main",
          tableName := "users", sinkId := "w1" }
        { properties := none } none (fun _ => SqlType.varchar)).createdDirs
      = ["pond/raw/main/users", "pond/tmp/w1"]
    ∧ (DuckPondSink.setup
        { pondRootDir := "pond", schemaName := some "main",
          tableName := "users", sinkId := "w1" }
        { properties := none } none (fun _ => SqlType.varchar)).createdDirs ≠ []
    ∧ (DuckPondSink.setup
        { pondRootDir := "pond", schemaName := some "main",
          tableName := "users", sinkId := "w1" }
        { properties := none } none (fun _ => SqlType.varchar)).tableResult
      = .error .schemaWithoutProperties := by
  refine ⟨rfl, ?_, rfl⟩
  decide

/-- C5 (amended): when a stream-writer is given a schema with no
`properties` key, staging-table creation fails with the SchemaError, but the
destination directory and the writer's private staging directory have
already been created by setup before the failure. -/
theorem c5_setup_schema_error_after_creating_dirs (s : DuckPondSink)
    (schema : TableSchema) (keyProperties : Option (List String))
    (toSqlType : String → SqlType) (h : schema.properties = none) :
    (s.setup schema keyProperties toSqlType).tableResult
        = .error .schemaWithoutProperties
    ∧ (s.setup schema keyProperties toSqlType).createdDirs
        = [s.sink_raw_dir, s.sink_tmp_dir] := by
  constructor
  · simp [DuckPondSink.setup, create_empty_table, h]
  · rfl

/-- C5 witness: concrete setup run with a propertyless schema. -/
theorem c5_setup_schema_error_after_creating_dirs_witness :
    (DuckPondSink.setup
        { pondRootDir := "pond", schemaName := none,
          tableName := "t", sinkId := "w2" }
        { properties := none } none (fun _ => SqlType.integer)).tableResult
      = .error .schemaWithoutProperties
    ∧ (DuckPondSink.setup
        { pondRootDir := "pond", schemaName := none,
          tableName := "t", sinkId := "w2" }
        { properties := none } none (fun _ => SqlType.integer)).createdDirs
      = [DuckPondSink.sink_raw_dir
          { pondRootDir := "pond", schemaName := none,
            tableName := "t", sinkId := "w2" },
         DuckPondSink.sink_tmp_dir
          { pondRootDir := "pond", schemaName := none,
            tableName := "t", sinkId := "w2" }] :=
  c5_setup_schema_error_after_creating_dirs _ _ _ _ rfl

/-- C6: for every field of a StreamSchema, the connector builds: for a
primary-key field whose mapped native type is an integer type, a column
carrying the sequence named from (namespace, table, field) whose next value
is the column's server default; for a primary-key field with a non-integer
mapped type, a primary-key column with no generator and no default; and for
a non-primary-key field, a plain non-key column. -/
theorem c6_primary_key_column_generation (schemaName tableName : String)
    (primaryKeys : List String) (toSqlType : String → SqlType)
    (propName propSchema : String) :
    (propName ∈ primaryKeys → (toSqlType propSchema).isIntegerInstance = true →
      buildColumn schemaName tableName primaryKeys toSqlType (propName, propSchema)
        = { name := propName
            sqlType := toSqlType propSchema
            sequence := some (pkSeqName schemaName tableName propName)
            serverDefault := some (pkSeqName schemaName tableName propName)
            primaryKey := true })
    ∧ (propName ∈ primaryKeys → (toSqlType propSchema).isIntegerInstance = false →
      buildColumn schemaName tableName primaryKeys toSqlType (propName, propSchema)
        = { name := propName
            sqlType := toSqlType propSchema
            sequence := none
            serverDefault := none
            primaryKey := true })
    ∧ (propName ∉ primaryKeys →
      buildColumn schemaName tableName primaryKeys toSqlType (propName, propSchema)
        = { name := propName
            sqlType := toSqlType propSchema
            sequence := none
            serverDefault := none
            primaryKey := false }) := by
  refine ⟨fun hmem hint => ?_, fun hmem hint => ?_, fun hmem => ?_⟩
  · simp [buildColumn, hmem, hint]
  · simp [buildColumn, hmem, hint]
  · simp [buildColumn, hmem]

/-- C6 witness: an integer-typed primary-key field "id" of table
(main, users) receives the sequence `main_users_id_pk_seq` and its next
value as default. -/
theorem c6_primary_key_column_generation_witness :
    buildColumn "main" "users" ["id"] demoTypeMapper ("id", "integer")
      = { name := "id"
          sqlType := SqlType.integer
          sequence := some "main_users_id_pk_seq"
          serverDefault := some "main_users_id_pk_seq"
          primaryKey := true } := by
  have h := (c6_primary_key_column_generation "main" "users" ["id"] demoTypeMapper
    "id" "integer").1 (by decide) (by decide)
  exact h.trans (by decide)

/-- C8: the destination storage path is a deterministic function of (root,
optional namespace, table name): with a truthy namespace it is
`root/raw/namespace/table`; with no namespace — or an empty one — it is
`root/raw/table`; and it does not depend on the writer identity, so two
writers agreeing on root, namespace and table resolve to the identical
path. -/
theorem c8_sink_raw_dir_layout (s : DuckPondSink) :
    (∀ n, s.schemaName = some n → n ≠ "" →
        s.sink_raw_dir = s.pondRootDir ++ "/raw/" ++ n ++ "/" ++ s.tableName)
    ∧ (s.schemaName = none →
        s.sink_raw_dir = s.pondRootDir ++ "/raw/" ++ s.tableName)
    ∧ (s.schemaName = some "" →
        s.sink_raw_dir = s.pondRootDir ++ "/raw/" ++ s.tableName)
    ∧ (∀ s2 : DuckPondSink, s2.pondRootDir = s.pondRootDir →
        s2.schemaName = s.schemaName → s2.tableName = s.tableName →
        s2.sink_raw_dir = s.sink_raw_dir) := by
  refine ⟨?_, ?_, ?_, ?_⟩
  · intro n hn hne
    simp [DuckPondSink.sink_raw_dir, hn, hne, String.append_assoc]
  · intro hn
    simp [DuckPondSink.sink_raw_dir, hn, String.append_assoc]
  · intro hn
    simp [DuckPondSink.sink_raw_dir, hn, String.append_assoc]
  · intro s2 h1 h2 h3
    simp [DuckPondSink.sink_raw_dir, h1, h2, h3]

/-- C8 witness: a writer with root "pond", namespace "main" and table
"users" resolves to "pond/raw/main/users". -/
theorem c8_sink_raw_dir_layout_witness :
    DuckPondSink.sink_raw_dir
        { pondRootDir := "pond", schemaName := some "main",
          tableName := "users", sinkId := "w3" }
      = "pond/raw/main/users" :=
  (c8_sink_raw_dir_layout
    { pondRootDir := "pond", schemaName := some "main",
      tableName := "users", sinkId := "w3" }).1 "main" rfl (by decide)

/-- C9: a writer's staging directory is `root/tmp/<writer-id>` and its
staging store file lives inside it, both embedding the writer identity; two
writer instances over the same pond root with distinct identities — whatever
their stream names — have distinct staging directories and distinct staging
store files. -/
theorem c9_distinct_sink_ids_disjoint_staging (a b : DuckPondSink)
    (hroot : a.pondRootDir = b.pondRootDir) (hid : a.sinkId ≠ b.sinkId) :
    a.sink_tmp_dir = a.pondRootDir ++ "/tmp/" ++ a.sinkId
    ∧ a.duckpond_db_path = a.sink_tmp_dir ++ "/duckpond.db"
    ∧ a.sink_tmp_dir ≠ b.sink_tmp_dir
    ∧ a.duckpond_db_path ≠ b.duckpond_db_path := by
  have htmp : a.sink_tmp_dir ≠ b.sink_tmp_dir := by
    intro h
    apply hid
    have h2 : a.pondRootDir ++ "/tmp/" ++ a.sinkId
        = b.pondRootDir ++ "/tmp/" ++ b.sinkId := h
    rw [hroot] at h2
    exact string_append_left_cancel h2
  refine ⟨rfl, rfl, htmp, ?_⟩
  intro h
  exact htmp (string_append_right_cancel h)

/-- C9 witness: two writers for the same stream "users" over root "pond"
with identities "w-a" and "w-b" get distinct staging directories. -/
theorem c9_distinct_sink_ids_disjoint_staging_witness :
    DuckPondSink.sink_tmp_dir
        { pondRootDir := "pond", schemaName := none,
          tableName := "users", sinkId := "w-a" }
      ≠ DuckPondSink.sink_tmp_dir
        { pondRootDir := "pond", schemaName := none,
          tableName := "users", sinkId := "w-b" } :=
  (c9_distinct_sink_ids_disjoint_staging
    { pondRootDir := "pond", schemaName := none,
      tableName := "users", sinkId := "w-a" }
    { pondRootDir := "pond", schemaName := none,
      tableName := "users", sinkId := "w-b" } rfl (by decide)).2.2.1

/-- C10: every call to `create_empty_table` with `as_temp_table` set raises
NotImplementedError before the schema is parsed or any table is created,
regardless of every other argument — in particular even for schemas that
would otherwise be rejected with the SchemaError. -/
theorem c10_temp_tables_not_implemented (schemaName tableName : String)
    (schema : TableSchema) (primaryKeys : Option (List String))
    (toSqlType : String → SqlType) :
    create_empty_table schemaName tableName schema primaryKeys true toSqlType
      = .error .notImplementedTempTables := rfl

/-! ### Dedent and rstrip lemmas -/

theorem splitLines_no_newline (a : Chars) (h : '\n' ∉ a) : splitLines a = [a] := by
  induction a with
  | nil => rfl
  | cons c cs ih =>
      have hc : ¬ c = '\n' := fun hcc => h (hcc ▸ List.mem_cons_self c cs)
      have hcs : '\n' ∉ cs := fun hm => h (List.mem_cons_of_mem c hm)
      simp [splitLines, hc, ih hcs]

theorem splitLines_append_newline (a rest : Chars) (h : '\n' ∉ a) :
    splitLines (a ++ '\n' :: rest) = a :: splitLines rest := by
  induction a with
  | nil => simp [splitLines]
  | cons c cs ih =>
      have hc : ¬ c = '\n' := fun hcc => h (hcc ▸ List.mem_cons_self c cs)
      have hcs : '\n' ∉ cs := fun hm => h (List.mem_cons_of_mem c hm)
      simp [splitLines, hc, ih hcs]

theorem takeWhile_append_all {p : Char → Bool} (a b : Chars) (h : a.all p = true) :
    (a ++ b).takeWhile p = a ++ b.takeWhile p := by
  induction a with
  | nil => simp
  | cons c cs ih =>
      simp only [List.all_cons, Bool.and_eq_true] at h
      simp [List.takeWhile_cons, h.1, ih h.2]

theorem indentOf_sp12 (x : Char) (hx : isWsChar x = false) (r : Chars) :
    indentOf (sp12 ++ x :: r) = sp12 := by
  have hall : sp12.all isWsChar = true := by decide
  simp [indentOf, takeWhile_append_all _ _ hall, List.takeWhile_cons, hx]

theorem isBlank_sp12_cons (x : Char) (hx : isWsChar x = false) (r : Chars) :
    isBlank (sp12 ++ x :: r) = false := by
  simp [isBlank, List.all_append, hx]

theorem commonIndent_self (l : Chars) : commonIndent l l = l := by
  induction l with
  | nil => rfl
  | cons c cs ih => simp [commonIndent, ih]

theorem hasIndent_append (a b : Chars) : hasIndent a (a ++ b) = true := by
  induction a with
  | nil => rfl
  | cons c cs ih => simp [hasIndent, ih]

theorem stripIndent_append (a b : Chars) : stripIndent a (a ++ b) = b := by
  simp [stripIndent, hasIndent_append, List.drop_left]

theorem stripIndent_self (a : Chars) : stripIndent a a = [] := by
  have h := stripIndent_append a []
  simpa using h

theorem not_mem_joinSep (c : Char) (sep : Chars) (l : List Chars)
    (hsep : c ∉ sep) (h : ∀ x ∈ l, c ∉ x) : c ∉ joinSep sep l := by
  induction l with
  | nil => simp [joinSep]
  | cons x xs ih =>
      cases xs with
      | nil => simpa [joinSep] using h x (List.mem_cons_self x [])
      | cons y ys =>
          have hx : c ∉ x := h x (List.mem_cons_self x (y :: ys))
          have hrest : ∀ z ∈ y :: ys, c ∉ z :=
            fun z hz => h z (List.mem_cons_of_mem x hz)
          simp [joinSep, List.mem_append, hx, hsep, ih hrest]

theorem rstripChars_closer (y : Chars) :
    rstripChars ((y ++ [')']) ++ ['\n']) = y ++ [')'] := by
  simp [rstripChars, List.dropWhile, (by decide : isWsChar '\n' = true),
    (by decide : isWsChar ')' = false)]

theorem rstripChars_ends_paren_newline (y : Chars) :
    rstripChars (y ++ [')', '\n']) = y ++ [')'] := by
  simp [rstripChars, List.dropWhile, (by decide : isWsChar '\n' = true),
    (by decide : isWsChar ')' = false)]

/-- The dedent-then-rstrip pipeline applied to the exact raw f-string shape
of the source, for newline-free table name and joined column/placeholder
texts: the twelve-space margin is removed from all four lines (the last,
whitespace-only line becomes empty) and the single trailing newline is
stripped. -/
theorem rstrip_dedent_template (t cols vals : Chars)
    (ht : '\n' ∉ t) (hc : '\n' ∉ cols) (hv : '\n' ∉ vals) :
    rstripChars (dedentChars (
      (sp12 ++ "INSERT INTO ".data ++ t) ++ '\n' ::
        ((sp12 ++ '(' :: (cols ++ [')'])) ++ '\n' ::
          ((sp12 ++ "VALUES (".data ++ vals ++ [')']) ++ '\n' :: sp12))))
      = "INSERT INTO ".data ++ t ++ "\n(".data ++ cols
          ++ ")\nVALUES (".data ++ vals ++ [')'] := by
  have hnsp : ¬ '\n' ∈ sp12 := by decide
  have hline1 : '\n' ∉ sp12 ++ "INSERT INTO ".data ++ t := by
    simp [List.mem_append, hnsp, (by decide : ¬ '\n' ∈ "INSERT INTO ".data), ht]
  have hline2 : '\n' ∉ sp12 ++ '(' :: (cols ++ [')']) := by
    simp [List.mem_append, List.mem_cons, hnsp, hc,
      (by decide : ¬ ('\n' = '(')), (by decide : ¬ ('\n' = ')'))]
  have hline3 : '\n' ∉ sp12 ++ "VALUES (".data ++ vals ++ [')'] := by
    simp [List.mem_append, hnsp, (by decide : ¬ '\n' ∈ "VALUES (".data), hv,
      (by decide : ¬ ('\n' = ')'))]
  have hsplit : splitLines (
      (sp12 ++ "INSERT INTO ".data ++ t) ++ '\n' ::
        ((sp12 ++ '(' :: (cols ++ [')'])) ++ '\n' ::
          ((sp12 ++ "VALUES (".data ++ vals ++ [')']) ++ '\n' :: sp12)))
      = [sp12 ++ "INSERT INTO ".data ++ t,
         sp12 ++ '(' :: (cols ++ [')']),
         sp12 ++ "VALUES (".data ++ vals ++ [')'],
         sp12] := by
    rw [splitLines_append_newline _ _ hline1, splitLines_append_newline _ _ hline2,
      splitLines_append_newline _ _ hline3, splitLines_no_newline sp12 (by decide)]
  have hb1 : isBlank (sp12 ++ "INSERT INTO ".data ++ t) = false :=
    isBlank_sp12_cons 'I' (by decide) ("NSERT INTO ".data ++ t)
  have hb2 : isBlank (sp12 ++ '(' :: (cols ++ [')'])) = false :=
    isBlank_sp12_cons '(' (by decide) (cols ++ [')'])
  have hb3 : isBlank (sp12 ++ "VALUES (".data ++ vals ++ [')']) = false :=
    isBlank_sp12_cons 'V' (by decide) ("ALUES (".data ++ vals ++ [')'])
  have hi1 : indentOf (sp12 ++ "INSERT INTO ".data ++ t) = sp12 :=
    indentOf_sp12 'I' (by decide) ("NSERT INTO ".data ++ t)
  have hi2 : indentOf (sp12 ++ '(' :: (cols ++ [')'])) = sp12 :=
    indentOf_sp12 '(' (by decide) (cols ++ [')'])
  have hi3 : indentOf (sp12 ++ "VALUES (".data ++ vals ++ [')']) = sp12 :=
    indentOf_sp12 'V' (by decide) ("ALUES (".data ++ vals ++ [')'])
  have hfil : List.filter (fun l => !isBlank l)
      [sp12 ++ "INSERT INTO ".data ++ t,
       sp12 ++ '(' :: (cols ++ [')']),
       sp12 ++ "VALUES (".data ++ vals ++ [')'],
       sp12]
      = [sp12 ++ "INSERT INTO ".data ++ t,
         sp12 ++ '(' :: (cols ++ [')']),
         sp12 ++ "VALUES (".data ++ vals ++ [')']] := by
    simp only [List.filter, hb1, hb2, hb3, (by decide : isBlank sp12 = true),
      Bool.not_true, Bool.not_false]
  have hmar : marginOf
      [sp12 ++ "INSERT INTO ".data ++ t,
       sp12 ++ '(' :: (cols ++ [')']),
       sp12 ++ "VALUES (".data ++ vals ++ [')'],
       sp12] = sp12 := by
    unfold marginOf
    rw [hfil]
    simp only [List.map_cons, List.map_nil, hi1, hi2, hi3]
    decide
  have hs1 : stripIndent sp12 (sp12 ++ "INSERT INTO ".data ++ t)
      = "INSERT INTO ".data ++ t :=
    stripIndent_append sp12 ("INSERT INTO ".data ++ t)
  have hs2 : stripIndent sp12 (sp12 ++ '(' :: (cols ++ [')']))
      = '(' :: (cols ++ [')']) :=
    stripIndent_append sp12 ('(' :: (cols ++ [')']))
  have hs3 : stripIndent sp12 (sp12 ++ "VALUES (".data ++ vals ++ [')'])
      = "VALUES (".data ++ vals ++ [')'] :=
    stripIndent_append sp12 ("VALUES (".data ++ vals ++ [')'])
  have hded : dedentChars (
      (sp12 ++ "INSERT INTO ".data ++ t) ++ '\n' ::
        ((sp12 ++ '(' :: (cols ++ [')'])) ++ '\n' ::
          ((sp12 ++ "VALUES (".data ++ vals ++ [')']) ++ '\n' :: sp12)))
      = joinSep ['\n']
          [("INSERT INTO ".data ++ t),
           ('(' :: (cols ++ [')'])),
           ("VALUES (".data ++ vals ++ [')']),
           ([] : Chars)] := by
    unfold dedentChars
    rw [hsplit, hmar]
    simp only [List.map_cons, List.map_nil, hs1, hs2, hs3, stripIndent_self]
  rw [hded]
  rw [show joinSep ['\n']
        [("INSERT INTO ".data ++ t),
         ('(' :: (cols ++ [')'])),
         ("VALUES (".data ++ vals ++ [')']),
         ([] : Chars)]
      = ("INSERT INTO ".data ++ t ++ '\n' :: '(' :: (cols
          ++ ')' :: '\n' :: ("VALUES (".data ++ vals))) ++ [')', '\n'] from by
    simp [joinSep, List.append_assoc]]
  rw [rstripChars_ends_paren_newline]
  simp [List.append_assoc, (show "\n(".data = ['\n', '('] from rfl),
    (show ")\nVALUES (".data = [')', '\n', 'V', 'A', 'L', 'U', 'E', 'S', ' ', '('] from rfl),
    (show "VALUES (".data = ['V', 'A', 'L', 'U', 'E', 'S', ' ', '('] from rfl)]

/-- C7: for every schema (given by its conformed property names, none of
which contains a newline, with a newline-free table name), the generated
insert statement names every conformed property with each column name
enclosed in double quotes, and supplies exactly one named parameter
placeholder per property, with the column list and the placeholder list in
the same order as the schema's properties. -/
theorem c7_insert_statement_quotes_every_property (t : Chars) (props : List Chars)
    (ht : '\n' ∉ t) (hp : ∀ p ∈ props, '\n' ∉ p) :
    generate_insert_statement t props
      = "INSERT INTO ".data ++ t ++ "\n(".data
          ++ joinSep ", ".data (props.map quotedName)
          ++ ")\nVALUES (".data
          ++ joinSep ", ".data (props.map paramRef) ++ [')']
    ∧ (props.map quotedName).length = props.length
    ∧ (props.map paramRef).length = props.length
    ∧ (∀ i : Nat, (hi : i < props.length) →
        (props.map quotedName).get ⟨i, by simpa using hi⟩
            = '"' :: (props.get ⟨i, hi⟩ ++ ['"'])
        ∧ (props.map paramRef).get ⟨i, by simpa using hi⟩
            = ':' :: props.get ⟨i, hi⟩) := by
  have hcols : '\n' ∉ joinSep ", ".data (props.map quotedName) := by
    apply not_mem_joinSep
    · decide
    · intro x hx
      obtain ⟨p, hpmem, rfl⟩ := List.mem_map.mp hx
      have hpp := hp p hpmem
      intro hmem
      simp only [quotedName, List.mem_cons, List.mem_append,
        List.mem_singleton] at hmem
      rcases hmem with h | h | h
      · exact absurd h (by decide)
      · exact hpp h
      · exact absurd h (by decide)
  have hvals : '\n' ∉ joinSep ", ".data (props.map paramRef) := by
    apply not_mem_joinSep
    · decide
    · intro x hx
      obtain ⟨p, hpmem, rfl⟩ := List.mem_map.mp hx
      have hpp := hp p hpmem
      intro hmem
      simp only [paramRef, List.mem_cons] at hmem
      rcases hmem with h | h
      · exact absurd h (by decide)
      · exact hpp h
  refine ⟨?_, List.length_map _ _, List.length_map _ _, ?_⟩
  · exact rstrip_dedent_template t
      (joinSep ", ".data (props.map quotedName))
      (joinSep ", ".data (props.map paramRef)) ht hcols hvals
  · intro i hi
    constructor
    · simp [List.get_eq_getElem, List.getElem_map, quotedName]
    · simp [List.get_eq_getElem, List.getElem_map, paramRef]

/-- C7 witness: for table `main.users` with properties `id` and `name`, the
generated statement is exactly the quoted-and-parameterized insert text. -/
theorem c7_insert_statement_quotes_every_property_witness :
    generate_insert_statement "main.users".data ["id".data, "name".data]
      = "INSERT INTO main.users\n(\"id\", \"name\")\nVALUES (:id, :name)".data := by
  have h := (c7_insert_statement_quotes_every_property "main.users".data
    ["id".data, "name".data] (by decide) (by decide)).1
  exact h.trans (by decide)

/-- C10 witness: even a schema that would otherwise be rejected for its
missing `properties` key hits the temp-table error first. -/
theorem c10_temp_tables_not_implemented_witness :
    create_empty_table "main" "users" { properties := none } none true
      (fun _ => SqlType.varchar) = .error .notImplementedTempTables :=
  c10_temp_tables_not_implemented "main" "users" { properties := none } none
    (fun _ => SqlType.varchar)
